import Mathlib

/-!
Verification of the sqlsmith run loop (`src/sqlsmith.cc`, function `main`,
lines 146-248) of the ssmonetdb repository.

The run loop is embedded shallowly as a fuel-indexed trace semantics.
Effects that `main` performs (printing a statement, notifying a logger,
calling `dut->test`, writing the TIMING line to `ssquery.log`, sleeping,
emitting the final report) become events in a trace; the loop state is the
`queries_generated` counter together with the state of the DUT session.

Nondeterminism of the environment is factored into oracles:
  * `execOut i`   - the outcome `dut->test` produces for the i-th generated
                    statement (success, `dut::failure` that is not broken,
                    or `dut::broken`);
  * `obsOk i k j` - whether logger j's hook of kind k succeeds (returns) or
                    raises a `runtime_error` for statement i;
  * `gfun seed i` - the rendered text (abstracted to a number) of the i-th
                    statement produced by `statement_factory` when the RNG
                    was seeded with `seed`.  Generation in `grammar.cc` is
                    not under src/; it is modelled as a deterministic
                    function of the seed, per the spec's determinism of
                    render and generation.
-/

namespace Ssmonetdb

/-- Outcome of `dut->test` for one statement: normal return, a thrown
`dut::failure` that is not a `dut::broken`, or a thrown `dut::broken`
(`sqlsmith.cc` lines 215, 222, 230). -/
inductive ExecOutcome
  | ok
  | stmtFail
  | broken
deriving DecidableEq, Repr

/-- The three logger lifecycle hooks: `l->generated` (line 199),
`l->executed` (line 218), `l->error` (line 225). -/
inductive HookKind
  | generated
  | executed
  | error
deriving DecidableEq, Repr

/-- Observable events of one run of `main`, in program order. -/
inductive Event
  /-- construction of the DUT object (`sqlsmith.cc` lines 163-178). -/
  | dutCreate (sess : Nat)
  /-- `statement_factory(&scope)` returned the statement numbered `stmt`
  whose rendered text is `txt` (lines 150, 196). -/
  | genStmt (stmt txt : Nat)
  /-- dry-run mode printed statement `stmt` to stdout (line 151). -/
  | printOut (stmt txt : Nat)
  /-- logger `obs` was invoked with hook `k` for statement `stmt`; `ok` is
  false when the hook raised (lines 199, 218, 225-228). -/
  | notify (k : HookKind) (stmt obs : Nat) (ok : Bool)
  /-- `dut->test` was invoked for statement `stmt` on session `sess`
  (line 215). -/
  | execStmt (stmt txt sess : Nat)
  /-- the `-- TIMING` line with the elapsed time was written to
  `ssquery.log` (line 220). -/
  | timing (stmt : Nat)
  /-- `this_thread::sleep_for(milliseconds ms)` (line 239). -/
  | sleep (ms : Nat)
  /-- `global_cerr_logger->report()` at the ceiling exit (line 190). -/
  | report
deriving DecidableEq, Repr

/-- The run configuration options that reach the loop: `--dry-run`,
`--max-queries`, `--seed`, `--verbose` (`sqlsmith.cc` lines 64, 136-158). -/
structure Options where
  dryRun : Bool
  maxQueries : Option Nat
  seed : Option Int
  verbose : Bool
deriving DecidableEq, Repr

/-- Loop state of the executing run loop: the `queries_generated` counter
(line 122) plus the DUT session state.  `sessGen` numbers the sessions the
DUT has established so far; `sessAlive` records whether the current one is
usable. -/
structure St where
  q : Nat
  sessAlive : Bool
  sessGen : Nat
deriving DecidableEq, Repr

/-- The seed given to `smith::rng.seed` (`sqlsmith.cc` line 146): the
`--seed` option when present, otherwise `getpid()`. -/
def seedUsed (opts : Options) (pid : Int) : Int :=
  opts.seed.getD pid

/-- Notify loggers `j0, j0+1, ...` (`n` of them) with a hook that `main`
does not guard per logger (`generated`, line 198-199, and `executed`,
lines 216-219): the first hook that raises aborts the fan-out and the
exception escapes.  Returns the notification events and whether all hooks
returned normally. -/
def notifyFirst (k : HookKind) (i : Nat) (okf : Nat → Bool) :
    Nat → Nat → List Event × Bool
  | 0, _ => ([], true)
  | n + 1, j =>
    if okf j then
      let r := notifyFirst k i okf n (j + 1)
      (Event.notify k i j true :: r.1, r.2)
    else
      ([Event.notify k i j false], false)

/-- Notify all `n` loggers with the `error` hook (`sqlsmith.cc` lines
223-229): each call sits in its own try/catch, so a raising hook is
recorded (the `log failed:` diagnostic) and the fan-out continues. -/
def notifyError (i : Nat) (okf : Nat → Bool) (n : Nat) : List Event :=
  (List.range n).map fun j => Event.notify HookKind.error i j (okf j)

/-- Ceiling test of the executing loop (`sqlsmith.cc` lines 187-188):
`++queries_generated > stol(options["max-queries"])`, applied to the
already incremented counter `q1`. -/
def atCeiling (opts : Options) (q1 : Nat) : Bool :=
  match opts.maxQueries with
  | some m => q1 > m
  | none => false

/-- Ceiling test of the dry-run loop (`sqlsmith.cc` lines 157-158):
`queries_generated >= stol(options["max-queries"])`, applied after the
increment on line 155. -/
def atCeilingDry (opts : Options) (q1 : Nat) : Bool :=
  match opts.maxQueries with
  | some m => q1 ≥ m
  | none => false

/-- One pass through the body of the inner executing loop (`sqlsmith.cc`
lines 194-234) together with the enclosing recovery catch (lines 237-240),
for the statement numbered `st.q + 1`.  Produces the events of the pass
and either the next loop state (`Sum.inl`) or the process exit status
(`Sum.inr`).  The fresh-session step (`sessAlive = false` forces a new
session before executing) is modelled from the spec: the reconnect lives
in the DUT implementations (`dut_pqxx` / `dut_monetdb`), which are not
under src/; the spec states the harness re-establishes its session before
the next statement runs. -/
def iterBody (nObs : Nat) (txtOf : Nat → Nat) (execOut : Nat → ExecOutcome)
    (obsOk : Nat → HookKind → Nat → Bool) (st : St) :
    List Event × (St ⊕ Nat) :=
  let i := st.q + 1
  let g := notifyFirst HookKind.generated i (obsOk i HookKind.generated) nObs 0
  let pre := Event.genStmt i (txtOf i) :: g.1
  if g.2 then
    let sg := if st.sessAlive then st.sessGen else st.sessGen + 1
    let pre2 := pre ++ [Event.execStmt i (txtOf i) sg]
    match execOut i with
    | ExecOutcome.ok =>
      let e := notifyFirst HookKind.executed i (obsOk i HookKind.executed) nObs 0
      if e.2 then
        (pre2 ++ e.1 ++ [Event.timing i], Sum.inl ⟨i, true, sg⟩)
      else
        (pre2 ++ e.1, Sum.inr 1)
    | ExecOutcome.stmtFail =>
      (pre2 ++ notifyError i (obsOk i HookKind.error) nObs, Sum.inl ⟨i, true, sg⟩)
    | ExecOutcome.broken =>
      (pre2 ++ notifyError i (obsOk i HookKind.error) nObs ++ [Event.sleep 1000],
       Sum.inl ⟨i, false, sg⟩)
  else
    (pre, Sum.inr 1)

/-- One iteration of the executing loop: the ceiling check (`sqlsmith.cc`
lines 187-192), which on reaching the ceiling emits the final report when
`--verbose` installed the cerr logger and returns 0, and otherwise the
loop body. -/
def mainIter (opts : Options) (nObs : Nat) (txtOf : Nat → Nat)
    (execOut : Nat → ExecOutcome) (obsOk : Nat → HookKind → Nat → Bool)
    (st : St) : List Event × (St ⊕ Nat) :=
  if atCeiling opts (st.q + 1) then
    ((if opts.verbose then [Event.report] else []), Sum.inr 0)
  else
    iterBody nObs txtOf execOut obsOk st

/-- The executing run loop (`sqlsmith.cc` lines 183-241), fuel-indexed:
`none` as second component means the loop is still running after `fuel`
iterations, `some c` that the process returned with status `c`. -/
def runMain (opts : Options) (nObs : Nat) (txtOf : Nat → Nat)
    (execOut : Nat → ExecOutcome) (obsOk : Nat → HookKind → Nat → Bool) :
    Nat → St → List Event × Option Nat
  | 0, _ => ([], none)
  | fuel + 1, st =>
    match mainIter opts nObs txtOf execOut obsOk st with
    | (evs, Sum.inr code) => (evs, some code)
    | (evs, Sum.inl st') =>
      let r := runMain opts nObs txtOf execOut obsOk fuel st'
      (evs ++ r.1, r.2)

/-- One iteration of the dry-run loop (`sqlsmith.cc` lines 148-161):
generate, print, notify `generated`, increment the counter, then test the
ceiling with `>=`. -/
def dryIter (opts : Options) (nObs : Nat) (txtOf : Nat → Nat)
    (obsOk : Nat → HookKind → Nat → Bool) (q : Nat) :
    List Event × (Nat ⊕ Nat) :=
  let i := q + 1
  let g := notifyFirst HookKind.generated i (obsOk i HookKind.generated) nObs 0
  let pre := Event.genStmt i (txtOf i) :: Event.printOut i (txtOf i) :: g.1
  if g.2 then
    if atCeilingDry opts i then (pre, Sum.inr 0) else (pre, Sum.inl i)
  else
    (pre, Sum.inr 1)

/-- The dry-run loop (`sqlsmith.cc` lines 148-161), fuel-indexed. -/
def runDry (opts : Options) (nObs : Nat) (txtOf : Nat → Nat)
    (obsOk : Nat → HookKind → Nat → Bool) :
    Nat → Nat → List Event × Option Nat
  | 0, _ => ([], none)
  | fuel + 1, q =>
    match dryIter opts nObs txtOf obsOk q with
    | (evs, Sum.inr code) => (evs, some code)
    | (evs, Sum.inl q') =>
      let r := runDry opts nObs txtOf obsOk fuel q'
      (evs ++ r.1, r.2)

/-- The whole of `main` after option parsing (`sqlsmith.cc` lines 97-248):
schema load (whose failure is caught at line 245 and yields status 1),
seeding the RNG, then either the dry-run loop or DUT construction followed
by the executing loop. -/
def run (opts : Options) (schemaOk : Bool) (nObs : Nat)
    (gfun : Int → Nat → Nat) (execOut : Nat → ExecOutcome)
    (obsOk : Nat → HookKind → Nat → Bool) (pid : Int) (fuel : Nat) :
    List Event × Option Nat :=
  if schemaOk then
    let txtOf := gfun (seedUsed opts pid)
    if opts.dryRun then
      runDry opts nObs txtOf obsOk fuel 0
    else
      let r := runMain opts nObs txtOf execOut obsOk fuel ⟨0, true, 1⟩
      (Event.dutCreate 1 :: r.1, r.2)
  else
    ([], some 1)

/-- Recognizes `dut->test` events, for counting executed statements. -/
def isExec : Event → Bool
  | Event.execStmt _ _ _ => true
  | _ => false

/-- Recognizes statement-generation events. -/
def isGen : Event → Bool
  | Event.genStmt _ _ => true
  | _ => false

/-- Recognizes dry-run print events. -/
def isPrint : Event → Bool
  | Event.printOut _ _ => true
  | _ => false

/-- Recognizes TIMING-line events. -/
def isTiming : Event → Bool
  | Event.timing _ => true
  | _ => false

/-- Recognizes backoff-sleep events. -/
def isSleep : Event → Bool
  | Event.sleep _ => true
  | _ => false

/-- Recognizes any interaction with the execution harness: its
construction or an execution through it. -/
def isHarness : Event → Bool
  | Event.dutCreate _ => true
  | Event.execStmt _ _ _ => true
  | _ => false

/-- Recognizes notification events of one particular hook kind. -/
def isNotifyOf (k : HookKind) : Event → Bool
  | Event.notify k' _ _ _ => k' == k
  | _ => false

/-- Whether the DUT session is still usable after `dut->test` produced the
given outcome: only a `dut::broken` tears the session down. -/
def aliveAfter : ExecOutcome → Bool
  | ExecOutcome.broken => false
  | _ => true

/-- The session the next `dut->test` call runs on: the current one when it
is alive, otherwise a freshly established one (modelled from the spec: the
reconnect lives in the DUT implementations, not under src/). -/
def sgAfter (st : St) : Nat :=
  if st.sessAlive then st.sessGen else st.sessGen + 1

/-- Concrete observer behavior: every hook of every logger returns
normally. -/
def obsAllOk : Nat → HookKind → Nat → Bool := fun _ _ _ => true

/-- Concrete observer behavior: logger 0's `generated` hook raises on
every statement, every other hook returns normally. -/
def obsBadGen0 : Nat → HookKind → Nat → Bool :=
  fun _ k j => !(k == HookKind.generated && j == 0)

/-- Concrete rendered-text oracle: statement i renders to `i`. -/
def gfunW : Int → Nat → Nat := fun _ i => i

/-- Concrete harness behavior: every statement succeeds. -/
def outAllOk : Nat → ExecOutcome := fun _ => ExecOutcome.ok

/-- Concrete harness behavior: every statement raises a non-broken
`dut::failure`. -/
def outAllFail : Nat → ExecOutcome := fun _ => ExecOutcome.stmtFail

/-- Concrete harness behavior: every statement raises `dut::broken`. -/
def outAllBroken : Nat → ExecOutcome := fun _ => ExecOutcome.broken

/-- Concrete harness behavior: the first statement raises `dut::broken`,
every later one succeeds. -/
def outBrokenAt1 : Nat → ExecOutcome :=
  fun i => if i = 1 then ExecOutcome.broken else ExecOutcome.ok

/-- Concrete observer behavior: every `error` hook raises, every
`generated` and `executed` hook returns normally. -/
def obsBadErr : Nat → HookKind → Nat → Bool :=
  fun _ k _ => !(k == HookKind.error)

/-- When every hook in a fail-fast fan-out returns normally, the fan-out
visits loggers `j0, ..., j0+n-1` in order and reports success. -/
theorem notifyFirst_allOk (k : HookKind) (i : Nat) (okf : Nat → Bool)
    (h : ∀ j, okf j = true) :
    ∀ (n j0 : Nat), notifyFirst k i okf n j0 =
      (((List.range' j0 n).map fun j => Event.notify k i j true), true)
  | 0, j0 => by simp [notifyFirst]
  | n + 1, j0 => by
    simp [notifyFirst, h j0, List.range'_succ,
      notifyFirst_allOk k i okf h n (j0 + 1)]

/-- A fail-fast fan-out emits only notification events. -/
theorem countP_notifyFirst (p : Event → Bool)
    (hp : ∀ k i j b, p (Event.notify k i j b) = false)
    (k : HookKind) (i : Nat) (okf : Nat → Bool) :
    ∀ (n j0 : Nat), ((notifyFirst k i okf n j0).1).countP p = 0
  | 0, _ => by simp [notifyFirst]
  | n + 1, j0 => by
    cases hj : okf j0 with
    | true =>
      simp [notifyFirst, hj, hp, countP_notifyFirst p hp k i okf n (j0 + 1)]
    | false => simp [notifyFirst, hj, hp]

/-- An error-hook fan-out emits only notification events. -/
theorem countP_notifyError (p : Event → Bool)
    (hp : ∀ k i j b, p (Event.notify k i j b) = false)
    (i : Nat) (okf : Nat → Bool) (n : Nat) :
    (notifyError i okf n).countP p = 0 := by
  rw [notifyError, List.countP_map]
  exact List.countP_eq_zero.mpr fun a _ => by simp [Function.comp, hp]

/-- An error-hook fan-out notifies every one of the `n` loggers. -/
theorem notifyError_count (i : Nat) (okf : Nat → Bool) (n : Nat) :
    (notifyError i okf n).countP (isNotifyOf HookKind.error) = n := by
  rw [notifyError, List.countP_map]
  have h : (isNotifyOf HookKind.error ∘ fun j =>
      Event.notify HookKind.error i j (okf j)) = fun _ => true := by
    funext j
    simp [isNotifyOf, Function.comp]
  rw [h, List.countP_true, List.length_range]

/-- Master description of one loop-body pass when no `generated` or
`executed` hook raises for the statement at hand (the `error` hooks may
behave arbitrarily): the events in program order and the successor state.
The counter is incremented, the session survives unless the outcome was
`dut::broken`, and a dead session is replaced by a fresh one before the
next execution. -/
theorem iterBody_ge (nObs : Nat) (txtOf : Nat → Nat)
    (execOut : Nat → ExecOutcome) (obsOk : Nat → HookKind → Nat → Bool)
    (st : St)
    (hg : ∀ j, obsOk (st.q + 1) HookKind.generated j = true)
    (he : ∀ j, obsOk (st.q + 1) HookKind.executed j = true) :
    iterBody nObs txtOf execOut obsOk st =
      (Event.genStmt (st.q + 1) (txtOf (st.q + 1)) ::
        (((List.range' 0 nObs).map fun j =>
            Event.notify HookKind.generated (st.q + 1) j true) ++
          [Event.execStmt (st.q + 1) (txtOf (st.q + 1)) (sgAfter st)] ++
          (match execOut (st.q + 1) with
           | ExecOutcome.ok =>
             ((List.range' 0 nObs).map fun j =>
               Event.notify HookKind.executed (st.q + 1) j true) ++
               [Event.timing (st.q + 1)]
           | ExecOutcome.stmtFail =>
             notifyError (st.q + 1) (obsOk (st.q + 1) HookKind.error) nObs
           | ExecOutcome.broken =>
             notifyError (st.q + 1) (obsOk (st.q + 1) HookKind.error) nObs ++
               [Event.sleep 1000])),
       Sum.inl ⟨st.q + 1, aliveAfter (execOut (st.q + 1)), sgAfter st⟩) := by
  rw [iterBody]
  simp only [notifyFirst_allOk HookKind.generated (st.q + 1) _ hg,
    notifyFirst_allOk HookKind.executed (st.q + 1) _ he]
  cases h : execOut (st.q + 1) <;>
    simp [sgAfter, aliveAfter, List.append_assoc]

/-- Master description of one dry-run pass when no `generated` hook raises
for the statement at hand: generate, print, notify, then either exit 0 at
the ceiling or continue with the incremented counter. -/
theorem dryIter_g (opts : Options) (nObs : Nat) (txtOf : Nat → Nat)
    (obsOk : Nat → HookKind → Nat → Bool) (q : Nat)
    (hg : ∀ j, obsOk (q + 1) HookKind.generated j = true) :
    dryIter opts nObs txtOf obsOk q =
      (Event.genStmt (q + 1) (txtOf (q + 1)) ::
        Event.printOut (q + 1) (txtOf (q + 1)) ::
        ((List.range' 0 nObs).map fun j =>
          Event.notify HookKind.generated (q + 1) j true),
       if atCeilingDry opts (q + 1) then Sum.inr 0 else Sum.inl (q + 1)) := by
  rw [dryIter]
  simp only [notifyFirst_allOk HookKind.generated (q + 1) _ hg]
  cases h : atCeilingDry opts (q + 1) <;> simp [h]

/-- An error-hook fan-out contains no notifications of another hook. -/
theorem notifyError_countP_other (k : HookKind)
    (hk : (HookKind.error == k) = false) (i : Nat) (okf : Nat → Bool)
    (n : Nat) : (notifyError i okf n).countP (isNotifyOf k) = 0 := by
  rw [notifyError, List.countP_map]
  have h : (isNotifyOf k ∘ fun j =>
      Event.notify HookKind.error i j (okf j)) = fun _ => false := by
    funext j
    simp [isNotifyOf, Function.comp, hk]
  rw [h, List.countP_false]
  rfl

/-- Notification events are not executions. -/
theorem isExec_notify (k : HookKind) (i j : Nat) (b : Bool) :
    isExec (Event.notify k i j b) = false := rfl

/-- Notification events are not generations. -/
theorem isGen_notify (k : HookKind) (i j : Nat) (b : Bool) :
    isGen (Event.notify k i j b) = false := rfl

/-- Notification events are not TIMING lines. -/
theorem isTiming_notify (k : HookKind) (i j : Nat) (b : Bool) :
    isTiming (Event.notify k i j b) = false := rfl

/-- Notification events are not sleeps. -/
theorem isSleep_notify (k : HookKind) (i j : Nat) (b : Bool) :
    isSleep (Event.notify k i j b) = false := rfl

/-- A `generated` notification is not an `executed` notification. -/
theorem isNotifyOf_exec_gen (i j : Nat) (b : Bool) :
    isNotifyOf HookKind.executed (Event.notify HookKind.generated i j b) =
      false := rfl

/-- An `executed` notification is an `executed` notification. -/
theorem isNotifyOf_exec_exec (i j : Nat) (b : Bool) :
    isNotifyOf HookKind.executed (Event.notify HookKind.executed i j b) =
      true := rfl

/-- A `generated` notification is not an `error` notification. -/
theorem isNotifyOf_err_gen (i j : Nat) (b : Bool) :
    isNotifyOf HookKind.error (Event.notify HookKind.generated i j b) =
      false := rfl

/-- An `executed` notification is not an `error` notification. -/
theorem isNotifyOf_err_exec (i j : Nat) (b : Bool) :
    isNotifyOf HookKind.error (Event.notify HookKind.executed i j b) =
      false := rfl

/-- Generation events are not notifications. -/
theorem isNotifyOf_genStmt (k : HookKind) (i t : Nat) :
    isNotifyOf k (Event.genStmt i t) = false := rfl

/-- Execution events are not notifications. -/
theorem isNotifyOf_execStmt (k : HookKind) (i t s : Nat) :
    isNotifyOf k (Event.execStmt i t s) = false := rfl

/-- TIMING events are not notifications. -/
theorem isNotifyOf_timing (k : HookKind) (i : Nat) :
    isNotifyOf k (Event.timing i) = false := rfl

/-- Sleep events are not notifications. -/
theorem isNotifyOf_sleep (k : HookKind) (ms : Nat) :
    isNotifyOf k (Event.sleep ms) = false := rfl

/-- Event counts of one loop-body pass when the `generated` and `executed`
hooks of the statement at hand return normally: exactly one generation and
one execution; a TIMING line exactly on success; exactly one backoff sleep
exactly on `dut::broken`; `executed` notifications to all loggers exactly
on success and `error` notifications to all loggers exactly on failure. -/
theorem iterBody_ge_counts (nObs : Nat) (txtOf : Nat → Nat)
    (execOut : Nat → ExecOutcome) (obsOk : Nat → HookKind → Nat → Bool)
    (st : St)
    (hg : ∀ j, obsOk (st.q + 1) HookKind.generated j = true)
    (he : ∀ j, obsOk (st.q + 1) HookKind.executed j = true) :
    ((iterBody nObs txtOf execOut obsOk st).1).countP isExec = 1 ∧
    ((iterBody nObs txtOf execOut obsOk st).1).countP isGen = 1 ∧
    ((iterBody nObs txtOf execOut obsOk st).1).countP isTiming =
      (if execOut (st.q + 1) = ExecOutcome.ok then 1 else 0) ∧
    ((iterBody nObs txtOf execOut obsOk st).1).countP isSleep =
      (if execOut (st.q + 1) = ExecOutcome.broken then 1 else 0) ∧
    ((iterBody nObs txtOf execOut obsOk st).1).countP
        (isNotifyOf HookKind.executed) =
      (if execOut (st.q + 1) = ExecOutcome.ok then nObs else 0) ∧
    ((iterBody nObs txtOf execOut obsOk st).1).countP
        (isNotifyOf HookKind.error) =
      (if execOut (st.q + 1) = ExecOutcome.ok then 0 else nObs) := by
  rw [iterBody_ge nObs txtOf execOut obsOk st hg he]
  cases h : execOut (st.q + 1) <;>
    simp [h, List.countP_append, List.countP_cons, List.countP_map,
      Function.comp_def, isExec_notify, isGen_notify, isTiming_notify,
      isSleep_notify, isNotifyOf_exec_gen, isNotifyOf_exec_exec,
      isNotifyOf_err_gen, isNotifyOf_err_exec, isNotifyOf_genStmt,
      isNotifyOf_execStmt, isNotifyOf_timing, isNotifyOf_sleep,
      List.length_range',
      isExec, isGen, isTiming, isSleep,
      notifyError_count, notifyError_countP_other,
      countP_notifyError isExec (fun _ _ _ _ => rfl),
      countP_notifyError isGen (fun _ _ _ _ => rfl),
      countP_notifyError isTiming (fun _ _ _ _ => rfl),
      countP_notifyError isSleep (fun _ _ _ _ => rfl)]

/-- Successor state of one loop-body pass when the `generated` and
`executed` hooks of the statement at hand return normally. -/
theorem iterBody_ge_snd (nObs : Nat) (txtOf : Nat → Nat)
    (execOut : Nat → ExecOutcome) (obsOk : Nat → HookKind → Nat → Bool)
    (st : St)
    (hg : ∀ j, obsOk (st.q + 1) HookKind.generated j = true)
    (he : ∀ j, obsOk (st.q + 1) HookKind.executed j = true) :
    (iterBody nObs txtOf execOut obsOk st).2 =
      Sum.inl ⟨st.q + 1, aliveAfter (execOut (st.q + 1)), sgAfter st⟩ := by
  rw [iterBody_ge nObs txtOf execOut obsOk st hg he]

/-- Below the ceiling one iteration of the executing loop is the loop
body. -/
theorem mainIter_below (opts : Options) (nObs : Nat) (txtOf : Nat → Nat)
    (execOut : Nat → ExecOutcome) (obsOk : Nat → HookKind → Nat → Bool)
    (st : St) (hc : atCeiling opts (st.q + 1) = false) :
    mainIter opts nObs txtOf execOut obsOk st =
      iterBody nObs txtOf execOut obsOk st := by
  simp [mainIter, hc]

/-- One unfolding of the executing loop when the iteration continues. -/
theorem runMain_cont (opts : Options) (nObs : Nat) (txtOf : Nat → Nat)
    (execOut : Nat → ExecOutcome) (obsOk : Nat → HookKind → Nat → Bool)
    (fuel : Nat) (st st' : St) (evs : List Event)
    (h : mainIter opts nObs txtOf execOut obsOk st = (evs, Sum.inl st')) :
    runMain opts nObs txtOf execOut obsOk (fuel + 1) st =
      (evs ++ (runMain opts nObs txtOf execOut obsOk fuel st').1,
       (runMain opts nObs txtOf execOut obsOk fuel st').2) := by
  simp [runMain, h]

/-- One unfolding of the executing loop when the iteration exits. -/
theorem runMain_exit (opts : Options) (nObs : Nat) (txtOf : Nat → Nat)
    (execOut : Nat → ExecOutcome) (obsOk : Nat → HookKind → Nat → Bool)
    (fuel : Nat) (st : St) (evs : List Event) (code : Nat)
    (h : mainIter opts nObs txtOf execOut obsOk st = (evs, Sum.inr code)) :
    runMain opts nObs txtOf execOut obsOk (fuel + 1) st = (evs, some code) := by
  simp [runMain, h]

/-- With a ceiling `m`, hooks that return normally and enough fuel, the
executing loop exits with status 0 after generating and executing exactly
the statements that take the counter from `st.q` to `m` — whatever their
outcomes are. -/
theorem runMain_ceiling_exit (opts : Options) (m : Nat)
    (hm : opts.maxQueries = some m) (nObs : Nat) (txtOf : Nat → Nat)
    (execOut : Nat → ExecOutcome) (obsOk : Nat → HookKind → Nat → Bool)
    (hg : ∀ i j, obsOk i HookKind.generated j = true)
    (he : ∀ i j, obsOk i HookKind.executed j = true) :
    ∀ (fuel : Nat) (st : St), st.q ≤ m → m - st.q < fuel →
      (runMain opts nObs txtOf execOut obsOk fuel st).2 = some 0 ∧
      ((runMain opts nObs txtOf execOut obsOk fuel st).1).countP isExec =
        m - st.q ∧
      ((runMain opts nObs txtOf execOut obsOk fuel st).1).countP isGen =
        m - st.q
  | 0, _, _, hf => absurd hf (by omega)
  | fuel + 1, st, hq, hf => by
    rcases Nat.lt_or_ge st.q m with hlt | hge
    · have hc : atCeiling opts (st.q + 1) = false := by
        simp [atCeiling, hm]
        omega
      have hib := iterBody_ge_counts nObs txtOf execOut obsOk st (hg _) (he _)
      rcases hit : iterBody nObs txtOf execOut obsOk st with ⟨evs, r⟩
      have hsnd := iterBody_ge_snd nObs txtOf execOut obsOk st (hg _) (he _)
      rw [hit] at hsnd hib
      have hmi : mainIter opts nObs txtOf execOut obsOk st =
          (evs, Sum.inl ⟨st.q + 1, aliveAfter (execOut (st.q + 1)),
            sgAfter st⟩) := by
        rw [mainIter_below opts nObs txtOf execOut obsOk st hc, hit]
        simpa using hsnd
      rw [runMain_cont opts nObs txtOf execOut obsOk fuel st _ evs hmi]
      have hrec := runMain_ceiling_exit opts m hm nObs txtOf execOut obsOk
        hg he fuel ⟨st.q + 1, aliveAfter (execOut (st.q + 1)), sgAfter st⟩
        (by simp; omega) (by simp; omega)
      refine ⟨hrec.1, ?_, ?_⟩
      · rw [List.countP_append, hib.1, hrec.2.1]
        simp
        omega
      · rw [List.countP_append, hib.2.1, hrec.2.2]
        simp
        omega
    · have hqm : st.q = m := by omega
      have hc : atCeiling opts (st.q + 1) = true := by
        simp [atCeiling, hm]
        omega
      have hmi : mainIter opts nObs txtOf execOut obsOk st =
          ((if opts.verbose then [Event.report] else []), Sum.inr 0) := by
        simp [mainIter, hc]
      rw [runMain_exit opts nObs txtOf execOut obsOk fuel st _ 0 hmi, hqm]
      cases opts.verbose <;> simp [isExec, isGen]

/-- When the `generated` and `executed` hooks return normally, the
executing loop never exits with a non-zero status, whatever outcomes the
harness produces and however the `error` hooks behave: statement failures
and broken sessions are absorbed by the loop. -/
theorem runMain_never_fails (opts : Options) (nObs : Nat)
    (txtOf : Nat → Nat) (execOut : Nat → ExecOutcome)
    (obsOk : Nat → HookKind → Nat → Bool)
    (hg : ∀ i j, obsOk i HookKind.generated j = true)
    (he : ∀ i j, obsOk i HookKind.executed j = true) :
    ∀ (fuel : Nat) (st : St),
      (runMain opts nObs txtOf execOut obsOk fuel st).2 = none ∨
      (runMain opts nObs txtOf execOut obsOk fuel st).2 = some 0
  | 0, _ => Or.inl rfl
  | fuel + 1, st => by
    cases hc : atCeiling opts (st.q + 1) with
    | true =>
      have hmi : mainIter opts nObs txtOf execOut obsOk st =
          ((if opts.verbose then [Event.report] else []), Sum.inr 0) := by
        simp [mainIter, hc]
      rw [runMain_exit opts nObs txtOf execOut obsOk fuel st _ 0 hmi]
      exact Or.inr rfl
    | false =>
      rcases hit : iterBody nObs txtOf execOut obsOk st with ⟨evs, r⟩
      have hsnd := iterBody_ge_snd nObs txtOf execOut obsOk st (hg _) (he _)
      rw [hit] at hsnd
      have hmi : mainIter opts nObs txtOf execOut obsOk st =
          (evs, Sum.inl ⟨st.q + 1, aliveAfter (execOut (st.q + 1)),
            sgAfter st⟩) := by
        rw [mainIter_below opts nObs txtOf execOut obsOk st hc, hit]
        simpa using hsnd
      rw [runMain_cont opts nObs txtOf execOut obsOk fuel st _ evs hmi]
      exact runMain_never_fails opts nObs txtOf execOut obsOk hg he fuel _

/-- Without a ceiling and with hooks that return normally, a harness that
raises `dut::broken` on every statement never makes the loop exit: every
iteration ends in the fixed backoff sleep and the loop retries, for as
many iterations as one cares to run it. -/
theorem runMain_broken_forever (opts : Options)
    (hm : opts.maxQueries = none) (nObs : Nat) (txtOf : Nat → Nat)
    (execOut : Nat → ExecOutcome) (obsOk : Nat → HookKind → Nat → Bool)
    (hg : ∀ i j, obsOk i HookKind.generated j = true)
    (he : ∀ i j, obsOk i HookKind.executed j = true)
    (hbrk : ∀ i, execOut i = ExecOutcome.broken) :
    ∀ (fuel : Nat) (st : St),
      (runMain opts nObs txtOf execOut obsOk fuel st).2 = none ∧
      ((runMain opts nObs txtOf execOut obsOk fuel st).1).countP isSleep =
        fuel
  | 0, _ => ⟨rfl, rfl⟩
  | fuel + 1, st => by
    have hc : atCeiling opts (st.q + 1) = false := by
      simp [atCeiling, hm]
    have hib := iterBody_ge_counts nObs txtOf execOut obsOk st (hg _) (he _)
    rcases hit : iterBody nObs txtOf execOut obsOk st with ⟨evs, r⟩
    have hsnd := iterBody_ge_snd nObs txtOf execOut obsOk st (hg _) (he _)
    rw [hit] at hsnd hib
    have hmi : mainIter opts nObs txtOf execOut obsOk st =
        (evs, Sum.inl ⟨st.q + 1, aliveAfter (execOut (st.q + 1)),
          sgAfter st⟩) := by
      rw [mainIter_below opts nObs txtOf execOut obsOk st hc, hit]
      simpa using hsnd
    rw [runMain_cont opts nObs txtOf execOut obsOk fuel st _ evs hmi]
    have hrec := runMain_broken_forever opts hm nObs txtOf execOut obsOk
      hg he hbrk fuel ⟨st.q + 1, aliveAfter (execOut (st.q + 1)), sgAfter st⟩
    refine ⟨hrec.1, ?_⟩
    rw [List.countP_append, hrec.2]
    have hs : evs.countP isSleep = 1 := by
      have := hib.2.2.2.1
      rwa [hbrk (st.q + 1), if_pos rfl] at this
    omega

/-- A loop-body pass whose statement does not succeed writes no TIMING
line, however the hooks behave: the `-- TIMING` write sits on the success
path only. -/
theorem iterBody_countP_isTiming_zero (nObs : Nat) (txtOf : Nat → Nat)
    (execOut : Nat → ExecOutcome) (obsOk : Nat → HookKind → Nat → Bool)
    (st : St) (hnok : execOut (st.q + 1) ≠ ExecOutcome.ok) :
    ((iterBody nObs txtOf execOut obsOk st).1).countP isTiming = 0 := by
  have hg0 := countP_notifyFirst isTiming (fun _ _ _ _ => rfl)
    HookKind.generated (st.q + 1) (obsOk (st.q + 1) HookKind.generated)
    nObs 0
  rcases hnf : notifyFirst HookKind.generated (st.q + 1)
      (obsOk (st.q + 1) HookKind.generated) nObs 0 with ⟨gevs, gok⟩
  rw [hnf] at hg0
  cases ho : execOut (st.q + 1) with
  | ok => exact absurd ho hnok
  | stmtFail =>
    cases gok <;>
      simp [iterBody, hnf, ho, hg0, isTiming,
        countP_notifyError isTiming (fun _ _ _ _ => rfl)]
  | broken =>
    cases gok <;>
      simp [iterBody, hnf, ho, hg0, isTiming,
        countP_notifyError isTiming (fun _ _ _ _ => rfl)]

/-- An iteration of the executing loop whose statement does not succeed
writes no TIMING line. -/
theorem mainIter_countP_isTiming_zero (opts : Options) (nObs : Nat)
    (txtOf : Nat → Nat) (execOut : Nat → ExecOutcome)
    (obsOk : Nat → HookKind → Nat → Bool) (st : St)
    (hnok : execOut (st.q + 1) ≠ ExecOutcome.ok) :
    ((mainIter opts nObs txtOf execOut obsOk st).1).countP isTiming = 0 := by
  cases hc : atCeiling opts (st.q + 1) with
  | true => cases opts.verbose <;> simp [mainIter, hc, isTiming]
  | false =>
    rw [mainIter_below opts nObs txtOf execOut obsOk st hc]
    exact iterBody_countP_isTiming_zero nObs txtOf execOut obsOk st hnok

/-- A run none of whose statements succeeds writes no TIMING line at all,
however the hooks behave. -/
theorem runMain_countP_isTiming_zero (opts : Options) (nObs : Nat)
    (txtOf : Nat → Nat) (execOut : Nat → ExecOutcome)
    (obsOk : Nat → HookKind → Nat → Bool)
    (hnok : ∀ i, execOut i ≠ ExecOutcome.ok) :
    ∀ (fuel : Nat) (st : St),
      ((runMain opts nObs txtOf execOut obsOk fuel st).1).countP isTiming =
        0
  | 0, _ => rfl
  | fuel + 1, st => by
    have h0 := mainIter_countP_isTiming_zero opts nObs txtOf execOut obsOk
      st (hnok _)
    rcases hmi : mainIter opts nObs txtOf execOut obsOk st with ⟨evs, r⟩
    rw [hmi] at h0
    cases r with
    | inr code =>
      rw [runMain_exit opts nObs txtOf execOut obsOk fuel st evs code hmi]
      exact h0
    | inl st' =>
      rw [runMain_cont opts nObs txtOf execOut obsOk fuel st st' evs hmi]
      rw [List.countP_append, h0,
        runMain_countP_isTiming_zero opts nObs txtOf execOut obsOk hnok
          fuel st']

/-- The events of one dry-run pass, however the hooks behave: generate,
print, fan out the `generated` notifications. -/
theorem dryIter_evs (opts : Options) (nObs : Nat) (txtOf : Nat → Nat)
    (obsOk : Nat → HookKind → Nat → Bool) (q : Nat) :
    (dryIter opts nObs txtOf obsOk q).1 =
      Event.genStmt (q + 1) (txtOf (q + 1)) ::
        Event.printOut (q + 1) (txtOf (q + 1)) ::
        (notifyFirst HookKind.generated (q + 1)
          (obsOk (q + 1) HookKind.generated) nObs 0).1 := by
  rw [dryIter]
  split
  · split <;> rfl
  · rfl

/-- The dry-run loop never touches the execution harness: it neither
constructs the DUT nor executes a statement. -/
theorem runDry_harness_free (opts : Options) (nObs : Nat)
    (txtOf : Nat → Nat) (obsOk : Nat → HookKind → Nat → Bool) :
    ∀ (fuel q : Nat),
      ((runDry opts nObs txtOf obsOk fuel q).1).countP isHarness = 0
  | 0, _ => rfl
  | fuel + 1, q => by
    have h0 : ((dryIter opts nObs txtOf obsOk q).1).countP isHarness = 0 := by
      rw [dryIter_evs]
      simp [isHarness,
        countP_notifyFirst isHarness (fun _ _ _ _ => rfl)]
    rcases hdi : dryIter opts nObs txtOf obsOk q with ⟨evs, r⟩
    rw [hdi] at h0
    cases r with
    | inr code => simp [runDry, hdi, h0]
    | inl q' =>
      simp only [runDry, hdi]
      rw [List.countP_append, h0,
        runDry_harness_free opts nObs txtOf obsOk fuel q']

/-- When the `generated` hooks return normally the dry-run loop never
exits with a non-zero status. -/
theorem runDry_never_fails (opts : Options) (nObs : Nat)
    (txtOf : Nat → Nat) (obsOk : Nat → HookKind → Nat → Bool)
    (hg : ∀ i j, obsOk i HookKind.generated j = true) :
    ∀ (fuel q : Nat),
      (runDry opts nObs txtOf obsOk fuel q).2 = none ∨
      (runDry opts nObs txtOf obsOk fuel q).2 = some 0
  | 0, _ => Or.inl rfl
  | fuel + 1, q => by
    have hdg := dryIter_g opts nObs txtOf obsOk q (hg _)
    cases hc : atCeilingDry opts (q + 1) with
    | true =>
      rw [hc] at hdg
      simp only [if_true] at hdg
      simp [runDry, hdg]
    | false =>
      rw [hc] at hdg
      simp only [Bool.false_eq_true, if_false] at hdg
      simp only [runDry, hdg]
      exact runDry_never_fails opts nObs txtOf obsOk hg fuel (q + 1)

/-- Print events of one dry-run pass when the `generated` hooks return
normally: exactly one statement is printed. -/
theorem dryIter_countP_isPrint (opts : Options) (nObs : Nat)
    (txtOf : Nat → Nat) (obsOk : Nat → HookKind → Nat → Bool) (q : Nat) :
    ((dryIter opts nObs txtOf obsOk q).1).countP isPrint = 1 := by
  rw [dryIter_evs]
  simp [isPrint, countP_notifyFirst isPrint (fun _ _ _ _ => rfl)]

/-- With a ceiling `m ≥ 1`, `generated` hooks that return normally and
enough fuel, the dry-run loop exits with status 0 after printing exactly
the statements that take the counter from `q` to `m`. -/
theorem runDry_ceiling_exit (opts : Options) (m : Nat)
    (hm : opts.maxQueries = some m) (nObs : Nat) (txtOf : Nat → Nat)
    (obsOk : Nat → HookKind → Nat → Bool)
    (hg : ∀ i j, obsOk i HookKind.generated j = true) :
    ∀ (fuel q : Nat), q < m → m - q ≤ fuel →
      (runDry opts nObs txtOf obsOk fuel q).2 = some 0 ∧
      ((runDry opts nObs txtOf obsOk fuel q).1).countP isPrint = m - q
  | 0, _, hq, hf => absurd hf (by omega)
  | fuel + 1, q, hq, hf => by
    have hdg := dryIter_g opts nObs txtOf obsOk q (hg _)
    have hp := dryIter_countP_isPrint opts nObs txtOf obsOk q
    cases hc : atCeilingDry opts (q + 1) with
    | true =>
      have hqm : m = q + 1 := by
        rw [atCeilingDry, hm] at hc
        simp at hc
        omega
      rw [hc] at hdg
      simp only [if_true] at hdg
      rw [hdg] at hp
      simp [runDry, hdg, hqm]
      simpa using hp
    | false =>
      have hq1 : q + 1 < m := by
        rw [atCeilingDry, hm] at hc
        simp at hc
        omega
      rw [hc] at hdg
      simp only [Bool.false_eq_true, if_false] at hdg
      rw [hdg] at hp
      simp only [runDry, hdg]
      have hrec := runDry_ceiling_exit opts m hm nObs txtOf obsOk hg fuel
        (q + 1) hq1 (by omega)
      refine ⟨hrec.1, ?_⟩
      rw [List.countP_append]
      simp only at hp
      rw [hp, hrec.2]
      omega

/-- With a loaded schema and no `--dry-run`, `main` constructs the DUT and
enters the executing loop on a fresh first session. -/
theorem run_exec (opts : Options) (nObs : Nat) (gfun : Int → Nat → Nat)
    (execOut : Nat → ExecOutcome) (obsOk : Nat → HookKind → Nat → Bool)
    (pid : Int) (fuel : Nat) (hdr : opts.dryRun = false) :
    run opts true nObs gfun execOut obsOk pid fuel =
      (Event.dutCreate 1 ::
        (runMain opts nObs (gfun (seedUsed opts pid)) execOut obsOk fuel
          ⟨0, true, 1⟩).1,
       (runMain opts nObs (gfun (seedUsed opts pid)) execOut obsOk fuel
          ⟨0, true, 1⟩).2) := by
  simp [run, hdr]

/-- With a loaded schema and `--dry-run`, `main` enters the dry-run loop
without ever reaching the DUT construction. -/
theorem run_dry (opts : Options) (nObs : Nat) (gfun : Int → Nat → Nat)
    (execOut : Nat → ExecOutcome) (obsOk : Nat → HookKind → Nat → Bool)
    (pid : Int) (fuel : Nat) (hdr : opts.dryRun = true) :
    run opts true nObs gfun execOut obsOk pid fuel =
      runDry opts nObs (gfun (seedUsed opts pid)) obsOk fuel 0 := by
  simp [run, hdr]

/-- C1: with a statement-count ceiling `m` (`--max-queries=m`), a harness
whose every execution succeeds and loggers whose hooks all return
normally, the run loop generates and executes exactly `m` statements and
then terminates with exit status 0. -/
theorem c1_ceiling_generates_exactly_m (opts : Options) (m nObs : Nat)
    (gfun : Int → Nat → Nat) (execOut : Nat → ExecOutcome)
    (obsOk : Nat → HookKind → Nat → Bool) (pid : Int) (fuel : Nat)
    (hdr : opts.dryRun = false) (hm : opts.maxQueries = some m)
    (_hex : ∀ i, execOut i = ExecOutcome.ok)
    (hobs : ∀ i k j, obsOk i k j = true)
    (hfuel : m < fuel) :
    (run opts true nObs gfun execOut obsOk pid fuel).2 = some 0 ∧
    ((run opts true nObs gfun execOut obsOk pid fuel).1).countP isExec =
      m ∧
    ((run opts true nObs gfun execOut obsOk pid fuel).1).countP isGen =
      m := by
  rw [run_exec opts nObs gfun execOut obsOk pid fuel hdr]
  dsimp only
  have h := runMain_ceiling_exit opts m hm nObs (gfun (seedUsed opts pid))
    execOut obsOk (fun i j => hobs i _ j) (fun i j => hobs i _ j) fuel
    ⟨0, true, 1⟩ (by simp) (by simpa)
  refine ⟨h.1, ?_, ?_⟩
  · simpa [List.countP_cons, isExec] using h.2.1
  · simpa [List.countP_cons, isGen] using h.2.2

/-- Witness for C1 at `m = 3`, one logger, fuel 4. -/
theorem c1_witness :
    (run ⟨false, some 3, none, false⟩ true 1 gfunW outAllOk obsAllOk
      7 4).2 = some 0 ∧
    ((run ⟨false, some 3, none, false⟩ true 1 gfunW outAllOk obsAllOk
      7 4).1).countP isExec = 3 ∧
    ((run ⟨false, some 3, none, false⟩ true 1 gfunW outAllOk obsAllOk
      7 4).1).countP isGen = 3 :=
  c1_ceiling_generates_exactly_m ⟨false, some 3, none, false⟩ 3 1 gfunW
    outAllOk obsAllOk 7 4 rfl rfl (fun _ => rfl) (fun _ _ _ => rfl)
    (by decide)

/-- C9: the `--max-queries` ceiling counts every generated statement
regardless of its outcome.  Even when no statement ever succeeds (each one
raises a `dut::failure` or `dut::broken`), the run still generates and
executes exactly `m` statements, writes no TIMING line at all, and exits
with status 0: the ceiling bounds generated statements, not successful
executions. -/
theorem c9_ceiling_counts_failures (opts : Options) (m nObs : Nat)
    (gfun : Int → Nat → Nat) (execOut : Nat → ExecOutcome)
    (obsOk : Nat → HookKind → Nat → Bool) (pid : Int) (fuel : Nat)
    (hdr : opts.dryRun = false) (hm : opts.maxQueries = some m)
    (hnok : ∀ i, execOut i ≠ ExecOutcome.ok)
    (hobs : ∀ i k j, obsOk i k j = true)
    (hfuel : m < fuel) :
    (run opts true nObs gfun execOut obsOk pid fuel).2 = some 0 ∧
    ((run opts true nObs gfun execOut obsOk pid fuel).1).countP isGen =
      m ∧
    ((run opts true nObs gfun execOut obsOk pid fuel).1).countP isExec =
      m ∧
    ((run opts true nObs gfun execOut obsOk pid fuel).1).countP isTiming =
      0 := by
  rw [run_exec opts nObs gfun execOut obsOk pid fuel hdr]
  dsimp only
  have h := runMain_ceiling_exit opts m hm nObs (gfun (seedUsed opts pid))
    execOut obsOk (fun i j => hobs i _ j) (fun i j => hobs i _ j) fuel
    ⟨0, true, 1⟩ (by simp) (by simpa)
  have ht := runMain_countP_isTiming_zero opts nObs (gfun (seedUsed opts pid))
    execOut obsOk hnok fuel ⟨0, true, 1⟩
  refine ⟨h.1, ?_, ?_, ?_⟩
  · simpa [List.countP_cons, isGen] using h.2.2
  · simpa [List.countP_cons, isExec] using h.2.1
  · simpa [List.countP_cons, isTiming] using ht

/-- Witness for C9 at `m = 2`, one logger, an always-failing harness,
fuel 3. -/
theorem c9_witness :
    (run ⟨false, some 2, none, false⟩ true 1 gfunW outAllFail obsAllOk
      7 3).2 = some 0 ∧
    ((run ⟨false, some 2, none, false⟩ true 1 gfunW outAllFail obsAllOk
      7 3).1).countP isGen = 2 ∧
    ((run ⟨false, some 2, none, false⟩ true 1 gfunW outAllFail obsAllOk
      7 3).1).countP isExec = 2 ∧
    ((run ⟨false, some 2, none, false⟩ true 1 gfunW outAllFail obsAllOk
      7 3).1).countP isTiming = 0 :=
  c9_ceiling_counts_failures ⟨false, some 2, none, false⟩ 2 1 gfunW
    outAllFail obsAllOk 7 3 rfl rfl (fun _ h => ExecOutcome.noConfusion h)
    (fun _ _ _ => rfl) (by decide)

/-- C5: without a `--max-queries` ceiling, consecutive `dut::broken`
failures never make the run loop exit: however many iterations one runs,
the loop has slept once per broken statement and is still running.  The
recovery path is unbounded. -/
theorem c5_unbounded_recovery (opts : Options) (nObs : Nat)
    (gfun : Int → Nat → Nat) (execOut : Nat → ExecOutcome)
    (obsOk : Nat → HookKind → Nat → Bool) (pid : Int)
    (hdr : opts.dryRun = false) (hm : opts.maxQueries = none)
    (hobs : ∀ i k j, obsOk i k j = true)
    (hbrk : ∀ i, execOut i = ExecOutcome.broken) (fuel : Nat) :
    (run opts true nObs gfun execOut obsOk pid fuel).2 = none ∧
    ((run opts true nObs gfun execOut obsOk pid fuel).1).countP isSleep =
      fuel := by
  rw [run_exec opts nObs gfun execOut obsOk pid fuel hdr]
  dsimp only
  have h := runMain_broken_forever opts hm nObs (gfun (seedUsed opts pid))
    execOut obsOk (fun i j => hobs i _ j) (fun i j => hobs i _ j) hbrk
    fuel ⟨0, true, 1⟩
  exact ⟨h.1, by simpa [List.countP_cons, isSleep] using h.2⟩

/-- Witness for C5 at fuel 3 with one logger. -/
theorem c5_witness :
    (run ⟨false, none, none, false⟩ true 1 gfunW outAllBroken obsAllOk
      7 3).2 = none ∧
    ((run ⟨false, none, none, false⟩ true 1 gfunW outAllBroken obsAllOk
      7 3).1).countP isSleep = 3 :=
  c5_unbounded_recovery ⟨false, none, none, false⟩ 1 gfunW outAllBroken
    obsAllOk 7 rfl rfl (fun _ _ _ => rfl) (fun _ => rfl) 3

/-- C4 as stated is false: an exception from a logger's `generated` hook
is caught by neither the inner loops nor the recovery catch; it reaches
the outermost handler of `main`, which returns 1 — a non-zero exit that is
neither a schema load failure nor an internal invariant violation (the
harness here never fails at all). -/
theorem c4_counterexample :
    (run ⟨false, none, none, false⟩ true 1 gfunW outAllOk obsBadGen0
      7 1).2 = some 1 := by decide

/-- C4 (amended): when every `generated` and `executed` hook returns
normally, the process exits non-zero only on schema load failure: whatever
outcomes the harness produces (statement failures, broken sessions) and
however the `error` hooks behave, a run over a loaded schema either is
still running or has exited with status 0, while a failed schema load
exits with status 1 at once. -/
theorem c4_exit_status (opts : Options) (nObs : Nat)
    (gfun : Int → Nat → Nat) (execOut : Nat → ExecOutcome)
    (obsOk : Nat → HookKind → Nat → Bool) (pid : Int) (fuel : Nat)
    (hg : ∀ i j, obsOk i HookKind.generated j = true)
    (he : ∀ i j, obsOk i HookKind.executed j = true) :
    ((run opts true nObs gfun execOut obsOk pid fuel).2 = none ∨
     (run opts true nObs gfun execOut obsOk pid fuel).2 = some 0) ∧
    run opts false nObs gfun execOut obsOk pid fuel = ([], some 1) := by
  refine ⟨?_, rfl⟩
  cases hdr : opts.dryRun with
  | false =>
    rw [run_exec opts nObs gfun execOut obsOk pid fuel hdr]
    exact runMain_never_fails opts nObs (gfun (seedUsed opts pid))
      execOut obsOk hg he fuel ⟨0, true, 1⟩
  | true =>
    rw [run_dry opts nObs gfun execOut obsOk pid fuel hdr]
    exact runDry_never_fails opts nObs (gfun (seedUsed opts pid)) obsOk
      hg fuel 0

/-- Witness for C4 (amended) on a run mixing statement failures and
broken sessions with raising `error` hooks. -/
theorem c4_witness :
    ((run ⟨false, none, none, false⟩ true 2 gfunW outAllBroken obsBadErr
       7 3).2 = none ∨
     (run ⟨false, none, none, false⟩ true 2 gfunW outAllBroken obsBadErr
       7 3).2 = some 0) ∧
    run ⟨false, none, none, false⟩ false 2 gfunW outAllBroken obsBadErr
      7 3 = ([], some 1) :=
  c4_exit_status ⟨false, none, none, false⟩ 2 gfunW outAllBroken obsBadErr
    7 3 (fun _ _ => rfl) (fun _ _ => rfl)

/-- C3 as stated is false: with two loggers of which the first one's
`generated` hook raises, the run loop terminates the process (exit 1) and
never notifies the second logger — only one `generated` notification
happens in the whole run.  Only the `error` hook is isolated per
observer. -/
theorem c3_counterexample :
    (run ⟨false, none, none, false⟩ true 2 gfunW outAllOk obsBadGen0
      7 3).2 = some 1 ∧
    ((run ⟨false, none, none, false⟩ true 2 gfunW outAllOk obsBadGen0
      7 3).1).countP (isNotifyOf HookKind.generated) = 1 := by decide

/-- C3 (amended): per-observer isolation holds for the `error` hook only.
When a statement raises a non-broken `dut::failure`, all loggers receive
the `error` notification — however many of their `error` hooks raise —
and the loop continues with the next statement; an exception from a
`generated` or `executed` hook instead escapes the loop and terminates
the process. -/
theorem c3_error_hook_isolated (nObs : Nat) (txtOf : Nat → Nat)
    (execOut : Nat → ExecOutcome) (obsOk : Nat → HookKind → Nat → Bool)
    (st : St)
    (hg : ∀ j, obsOk (st.q + 1) HookKind.generated j = true)
    (he : ∀ j, obsOk (st.q + 1) HookKind.executed j = true)
    (hsf : execOut (st.q + 1) = ExecOutcome.stmtFail) :
    (iterBody nObs txtOf execOut obsOk st).2 =
      Sum.inl ⟨st.q + 1, true, sgAfter st⟩ ∧
    ((iterBody nObs txtOf execOut obsOk st).1).countP
      (isNotifyOf HookKind.error) = nObs := by
  have hs := iterBody_ge_snd nObs txtOf execOut obsOk st hg he
  have hc := (iterBody_ge_counts nObs txtOf execOut obsOk st hg he).2.2.2.2.2
  rw [hsf] at hs hc
  refine ⟨by simpa [aliveAfter] using hs, ?_⟩
  simpa using hc

/-- Witness for C3 (amended): two loggers whose `error` hooks all raise
are both still notified, and the loop continues. -/
theorem c3_witness :
    (iterBody 2 (gfunW 0) outAllFail obsBadErr ⟨0, true, 1⟩).2 =
      Sum.inl ⟨0 + 1, true, sgAfter ⟨0, true, 1⟩⟩ ∧
    ((iterBody 2 (gfunW 0) outAllFail obsBadErr ⟨0, true, 1⟩).1).countP
      (isNotifyOf HookKind.error) = 2 :=
  c3_error_hook_isolated 2 (gfunW 0) outAllFail obsBadErr ⟨0, true, 1⟩
    (fun _ => rfl) (fun _ => rfl) rfl

/-- C6: the classification of one executed statement dispatches exactly as
specified.  With all hooks returning normally: the counter always
advances; on success all `nObs` loggers are notified `executed` and none
`error`; on a non-broken `dut::failure` all loggers are notified `error`
and the loop returns to generating without sleeping, the session kept; on
`dut::broken` all loggers are notified `error` and the pass ends in the
backoff sleep with the session marked dead, handing control to the
recovery path. -/
theorem c6_classification_dispatch (nObs : Nat) (txtOf : Nat → Nat)
    (execOut : Nat → ExecOutcome) (obsOk : Nat → HookKind → Nat → Bool)
    (st : St) (hobs : ∀ i k j, obsOk i k j = true) :
    (iterBody nObs txtOf execOut obsOk st).2 =
      Sum.inl ⟨st.q + 1, aliveAfter (execOut (st.q + 1)), sgAfter st⟩ ∧
    ((iterBody nObs txtOf execOut obsOk st).1).countP
        (isNotifyOf HookKind.executed) =
      (if execOut (st.q + 1) = ExecOutcome.ok then nObs else 0) ∧
    ((iterBody nObs txtOf execOut obsOk st).1).countP
        (isNotifyOf HookKind.error) =
      (if execOut (st.q + 1) = ExecOutcome.ok then 0 else nObs) ∧
    ((iterBody nObs txtOf execOut obsOk st).1).countP isSleep =
      (if execOut (st.q + 1) = ExecOutcome.broken then 1 else 0) := by
  have hc := iterBody_ge_counts nObs txtOf execOut obsOk st
    (fun j => hobs _ _ j) (fun j => hobs _ _ j)
  exact ⟨iterBody_ge_snd nObs txtOf execOut obsOk st
    (fun j => hobs _ _ j) (fun j => hobs _ _ j),
    hc.2.2.2.2.1, hc.2.2.2.2.2, hc.2.2.2.1⟩

/-- Witness for C6 on a statement that breaks the session. -/
theorem c6_witness :
    (iterBody 1 (gfunW 0) outBrokenAt1 obsAllOk ⟨0, true, 1⟩).2 =
      Sum.inl ⟨0 + 1, aliveAfter (outBrokenAt1 (0 + 1)),
        sgAfter ⟨0, true, 1⟩⟩ ∧
    ((iterBody 1 (gfunW 0) outBrokenAt1 obsAllOk ⟨0, true, 1⟩).1).countP
        (isNotifyOf HookKind.executed) =
      (if outBrokenAt1 (0 + 1) = ExecOutcome.ok then 1 else 0) ∧
    ((iterBody 1 (gfunW 0) outBrokenAt1 obsAllOk ⟨0, true, 1⟩).1).countP
        (isNotifyOf HookKind.error) =
      (if outBrokenAt1 (0 + 1) = ExecOutcome.ok then 0 else 1) ∧
    ((iterBody 1 (gfunW 0) outBrokenAt1 obsAllOk ⟨0, true, 1⟩).1).countP
        isSleep =
      (if outBrokenAt1 (0 + 1) = ExecOutcome.broken then 1 else 0) :=
  c6_classification_dispatch 1 (gfunW 0) outBrokenAt1 obsAllOk ⟨0, true, 1⟩
    (fun _ _ _ => rfl)

/-- C7 as stated is false: in a run whose single statement raises a
non-broken `dut::failure`, the statement is submitted to the harness
(one execution event) but no elapsed time is ever computed or attached to
the reported outcome — the `-- TIMING` write sits on the success path
only. -/
theorem c7_counterexample :
    ((run ⟨false, some 1, none, false⟩ true 1 gfunW outAllFail obsAllOk
      7 2).1).countP isExec = 1 ∧
    ((run ⟨false, some 1, none, false⟩ true 1 gfunW outAllFail obsAllOk
      7 2).1).countP isTiming = 0 := by decide

/-- C7 (amended): each loop-body pass submits its statement exactly once,
and the elapsed execution time is measured and attached to the reported
outcome exactly when the statement succeeds; a failing statement's
outcome is reported without timing. -/
theorem c7_timing_on_success_only (nObs : Nat) (txtOf : Nat → Nat)
    (execOut : Nat → ExecOutcome) (obsOk : Nat → HookKind → Nat → Bool)
    (st : St) (hobs : ∀ i k j, obsOk i k j = true) :
    ((iterBody nObs txtOf execOut obsOk st).1).countP isExec = 1 ∧
    ((iterBody nObs txtOf execOut obsOk st).1).countP isTiming =
      (if execOut (st.q + 1) = ExecOutcome.ok then 1 else 0) := by
  have hc := iterBody_ge_counts nObs txtOf execOut obsOk st
    (fun j => hobs _ _ j) (fun j => hobs _ _ j)
  exact ⟨hc.1, hc.2.2.1⟩

/-- Witness for C7 (amended) on a succeeding statement. -/
theorem c7_witness :
    ((iterBody 1 (gfunW 0) outAllOk obsAllOk ⟨0, true, 1⟩).1).countP
      isExec = 1 ∧
    ((iterBody 1 (gfunW 0) outAllOk obsAllOk ⟨0, true, 1⟩).1).countP
        isTiming =
      (if outAllOk (0 + 1) = ExecOutcome.ok then 1 else 0) :=
  c7_timing_on_success_only 1 (gfunW 0) outAllOk obsAllOk ⟨0, true, 1⟩
    (fun _ _ _ => rfl)

/-- C8 as stated is false at ceiling 0: the dry-run loop tests the
ceiling only after printing, with `>=`, so `--dry-run --max-queries=0`
prints one statement (not zero) before exiting with status 0. -/
theorem c8_counterexample :
    (run ⟨true, some 0, none, false⟩ true 1 gfunW outAllOk obsAllOk
      7 1).2 = some 0 ∧
    ((run ⟨true, some 0, none, false⟩ true 1 gfunW outAllOk obsAllOk
      7 1).1).countP isPrint = 1 := by decide

/-- C8 (amended): in `--dry-run` mode the run loop only generates, prints
and notifies in a tight loop and never constructs or invokes the
execution harness; with a statement-count ceiling `m ≥ 1` it prints
exactly `m` statements and exits with status 0 (at `m = 0` it prints one
statement before exiting, since the ceiling is tested after printing). -/
theorem c8_dry_run_renders_only (opts : Options) (m nObs : Nat)
    (gfun : Int → Nat → Nat) (execOut : Nat → ExecOutcome)
    (obsOk : Nat → HookKind → Nat → Bool) (pid : Int) (fuel : Nat)
    (hdr : opts.dryRun = true) (hm : opts.maxQueries = some m)
    (hm1 : 1 ≤ m) (hobs : ∀ i k j, obsOk i k j = true)
    (hfuel : m ≤ fuel) :
    (run opts true nObs gfun execOut obsOk pid fuel).2 = some 0 ∧
    ((run opts true nObs gfun execOut obsOk pid fuel).1).countP isPrint =
      m ∧
    ((run opts true nObs gfun execOut obsOk pid fuel).1).countP
      isHarness = 0 := by
  rw [run_dry opts nObs gfun execOut obsOk pid fuel hdr]
  have h := runDry_ceiling_exit opts m hm nObs (gfun (seedUsed opts pid))
    obsOk (fun i j => hobs i _ j) fuel 0 (by omega) (by omega)
  exact ⟨h.1, by simpa using h.2,
    runDry_harness_free opts nObs (gfun (seedUsed opts pid)) obsOk fuel 0⟩

/-- Witness for C8 (amended) at `m = 2`, fuel 2. -/
theorem c8_witness :
    (run ⟨true, some 2, none, false⟩ true 1 gfunW outAllOk obsAllOk
      7 2).2 = some 0 ∧
    ((run ⟨true, some 2, none, false⟩ true 1 gfunW outAllOk obsAllOk
      7 2).1).countP isPrint = 2 ∧
    ((run ⟨true, some 2, none, false⟩ true 1 gfunW outAllOk obsAllOk
      7 2).1).countP isHarness = 0 :=
  c8_dry_run_renders_only ⟨true, some 2, none, false⟩ 2 1 gfunW outAllOk
    obsAllOk 7 2 rfl rfl (by decide) (fun _ _ _ => rfl) (by decide)

/-- C2: when the statement numbered `q0 + 1` raises `dut::broken` on the
live session `g` and the next statement succeeds, two iterations of the
run loop produce exactly: generation and notification of statement
`q0 + 1`, its execution on session `g`, the `error` fan-out, the fixed
1000 ms backoff sleep, and then generation, notification and execution of
statement `q0 + 2` on the freshly established session `g + 1` — the loop
is still running.  The session re-establishment inside `dut->test` is
modelled from the spec (the reconnect lives in the DUT implementations,
which are not under src/). -/
theorem c2_broken_session_recovery (opts : Options) (nObs : Nat)
    (txtOf : Nat → Nat) (execOut : Nat → ExecOutcome)
    (obsOk : Nat → HookKind → Nat → Bool) (q0 g : Nat)
    (hm : opts.maxQueries = none)
    (hobs : ∀ i k j, obsOk i k j = true)
    (hb : execOut (q0 + 1) = ExecOutcome.broken)
    (ho : execOut (q0 + 2) = ExecOutcome.ok) :
    runMain opts nObs txtOf execOut obsOk 2 ⟨q0, true, g⟩ =
      (Event.genStmt (q0 + 1) (txtOf (q0 + 1)) ::
        (((List.range' 0 nObs).map fun j =>
            Event.notify HookKind.generated (q0 + 1) j true) ++
          [Event.execStmt (q0 + 1) (txtOf (q0 + 1)) g] ++
          notifyError (q0 + 1) (obsOk (q0 + 1) HookKind.error) nObs ++
          [Event.sleep 1000] ++
          Event.genStmt (q0 + 2) (txtOf (q0 + 2)) ::
            (((List.range' 0 nObs).map fun j =>
                Event.notify HookKind.generated (q0 + 2) j true) ++
              [Event.execStmt (q0 + 2) (txtOf (q0 + 2)) (g + 1)] ++
              ((List.range' 0 nObs).map fun j =>
                Event.notify HookKind.executed (q0 + 2) j true) ++
              [Event.timing (q0 + 2)])),
       none) := by
  have h1 := iterBody_ge nObs txtOf execOut obsOk ⟨q0, true, g⟩
    (fun j => hobs _ _ j) (fun j => hobs _ _ j)
  dsimp only at h1
  rw [hb] at h1
  simp only [aliveAfter, sgAfter] at h1
  have hc1 : atCeiling opts ((⟨q0, true, g⟩ : St).q + 1) = false := by
    simp [atCeiling, hm]
  have hmi1 := mainIter_below opts nObs txtOf execOut obsOk ⟨q0, true, g⟩
    hc1
  rw [h1] at hmi1
  simp only [if_true] at hmi1
  rw [runMain_cont opts nObs txtOf execOut obsOk 1 ⟨q0, true, g⟩ _ _ hmi1]
  have h2 := iterBody_ge nObs txtOf execOut obsOk ⟨q0 + 1, false, g⟩
    (fun j => hobs _ _ j) (fun j => hobs _ _ j)
  dsimp only at h2
  have hadd : q0 + 1 + 1 = q0 + 2 := rfl
  rw [hadd, ho] at h2
  simp only [aliveAfter, sgAfter] at h2
  have hc2 : atCeiling opts ((⟨q0 + 1, false, g⟩ : St).q + 1) = false := by
    simp [atCeiling, hm]
  have hmi2 := mainIter_below opts nObs txtOf execOut obsOk
    ⟨q0 + 1, false, g⟩ hc2
  rw [h2] at hmi2
  simp only [Bool.false_eq_true, if_false] at hmi2
  rw [runMain_cont opts nObs txtOf execOut obsOk 0 ⟨q0 + 1, false, g⟩ _ _
    hmi2]
  simp [runMain, List.append_assoc]

/-- Witness for C2: one logger, session 5 broken by the first statement,
the second statement running on fresh session 6 after the backoff. -/
theorem c2_witness :
    runMain ⟨false, none, none, false⟩ 1 (gfunW 0) outBrokenAt1 obsAllOk
      2 ⟨0, true, 5⟩ =
      ([Event.genStmt 1 1,
        Event.notify HookKind.generated 1 0 true,
        Event.execStmt 1 1 5,
        Event.notify HookKind.error 1 0 true,
        Event.sleep 1000,
        Event.genStmt 2 2,
        Event.notify HookKind.generated 2 0 true,
        Event.execStmt 2 2 6,
        Event.notify HookKind.executed 2 0 true,
        Event.timing 2],
       none) := by
  have h := c2_broken_session_recovery ⟨false, none, none, false⟩ 1
    (gfunW 0) outBrokenAt1 obsAllOk 0 5 rfl (fun _ _ _ => rfl) rfl rfl
  simpa [notifyError, obsAllOk, gfunW] using h

/-- C10: the RNG seed is `--seed` when supplied and `getpid()` otherwise,
and the whole run — statement texts included — is a function of the seed:
two runs with the same options, schema, harness and loggers but different
process ids produce identical traces and exit statuses whenever `--seed`
is supplied.  Statement generation itself (grammar.cc, not under src/) is
modelled as a deterministic function of the seed. -/
theorem c10_seed_determinism (dr vb : Bool) (mq : Option Nat) (s : Int)
    (schemaOk : Bool) (nObs : Nat) (gfun : Int → Nat → Nat)
    (execOut : Nat → ExecOutcome) (obsOk : Nat → HookKind → Nat → Bool)
    (pid1 pid2 : Int) (fuel : Nat) :
    seedUsed ⟨dr, mq, some s, vb⟩ pid1 = s ∧
    seedUsed ⟨dr, mq, none, vb⟩ pid1 = pid1 ∧
    run ⟨dr, mq, some s, vb⟩ schemaOk nObs gfun execOut obsOk pid1 fuel =
      run ⟨dr, mq, some s, vb⟩ schemaOk nObs gfun execOut obsOk pid2
        fuel :=
  ⟨rfl, rfl, rfl⟩

end Ssmonetdb
